import Mathlib

/-!
Verification development for the CivicSweep client's offline-resilience core
(`app/src/main/assets/app.js`): the TTL read cache, the network gateway
(`api`), JWT expiry checking, the offline credential vault
(`rememberSession` / `findOfflineAccount`) and the offline retry queue
(`OfflineQueue`).

Modelling conventions:
- JS strings are Lean `String`; `String.toLower` / `String.trim` model
  `toLowerCase()` / `trim()`.
- JSON values flowing through the cache are opaque: `JVal := Option String`,
  where `none` models the JS value `null` (so a cache miss and a stored
  `null` are indistinguishable to callers, exactly as in the source, which
  tests `cached != null`).
- `Date.now()` is an explicit `nowMs : Nat` parameter; `Math.floor(Date.now()/1000)`
  is `nowSec : Int`.
- Asynchronous runs of `OfflineQueue.flush` are modelled as one atomic state
  transition with connectivity held fixed for the duration of the run; the
  per-item results of the remote calls are an oracle
  `outcome : QueueItem -> Option JsErr` (`none` = the awaited call returned,
  `some e` = it threw `e`).
- A JWT string is represented by the result of `decodeJwtPayload` on it:
  `none` models a token whose middle segment cannot be base64-decoded and
  JSON-parsed (or which has fewer than two segments).
-/

/-- Opaque JSON value; `none` is the JS `null`. -/
abbrev JVal := Option String

/-- The record `{ t: Date.now(), v: val }` stored under `cache:<key>`. -/
structure CacheRec where
  t : Nat
  v : JVal
deriving DecidableEq

/-- The slice of the persistent store holding cache records. -/
abbrev CacheStore := String → Option CacheRec

namespace Cache

/-- Default `maxAgeMs` of `Cache.get` (`10 * 60 * 1000` in the source). -/
def defaultMaxAgeMs : Nat := 10 * 60 * 1000

/-- `Cache.get(key, maxAgeMs)`: absent record gives `null`; a record with a
truthy timestamp older than `maxAgeMs` gives `null`; otherwise `rec.v`.
(JS `rec.t && (Date.now() - rec.t) > maxAgeMs`: the age test is skipped when
`rec.t` is the falsy `0`.  `Nat` subtraction matches JS here: for
`nowMs < rec.t` the JS difference is negative, hence not `> maxAgeMs`, and
the `Nat` difference is `0`, likewise not `> maxAgeMs`.) -/
def get (store : CacheStore) (key : String) (maxAgeMs nowMs : Nat) : JVal :=
  match store key with
  | none => none
  | some r => if r.t ≠ 0 ∧ nowMs - r.t > maxAgeMs then none else r.v

/-- `Cache.set(key, val)`: overwrites with `{ t: Date.now(), v: val }`. -/
def set (store : CacheStore) (key : String) (v : JVal) (nowMs : Nat) : CacheStore :=
  fun k => if k = key then some { t := nowMs, v := v } else store k

end Cache

/-- A thrown JS error, by its `name` and `message` fields. -/
structure JsErr where
  name : String
  message : String
deriving DecidableEq

/-- `String.prototype.toLowerCase()` (character-wise lowering). -/
def lowerStr (s : String) : String := ⟨s.data.map Char.toLower⟩

/-- JS whitespace for `trim()` (the characters relevant to login ids). -/
def isWsChar (c : Char) : Bool := c == ' ' || c == '\t' || c == '\n' || c == '\r'

/-- `String.prototype.trim()`: strip whitespace from both ends. -/
def trimStr (s : String) : String :=
  ⟨((s.data.dropWhile isWsChar).reverse.dropWhile isWsChar).reverse⟩

/-- Whether `pat` is an initial segment of `text` (character lists). -/
def leadMatch : List Char → List Char → Bool
  | [], _ => true
  | _ :: _, [] => false
  | p :: ps, t :: ts => p == t && leadMatch ps ts

/-- Whether `pat` occurs contiguously somewhere in `text`. -/
def occursIn (pat : List Char) : List Char → Bool
  | [] => leadMatch pat []
  | t :: ts => leadMatch pat (t :: ts) || occursIn pat ts

/-- The regex `/failed to fetch|networkerror|load failed|network/i` applied to
an error message: case-insensitive occurrence of any of the alternatives. -/
def netErrorPattern (msg : String) : Bool :=
  let m := (lowerStr msg).data
  occursIn "failed to fetch".data m || occursIn "networkerror".data m ||
    occursIn "load failed".data m || occursIn "network".data m

/-- `isNetworkError(err)`: true when the platform reports offline, when the
error is a `TypeError`, or when the message matches the transport-failure
pattern. -/
def isNetworkError (online : Bool) (errName errMessage : String) : Bool :=
  !online || errName == "TypeError" || netErrorPattern errMessage

/-- The result of the `fetch` call inside `api`: either the promise rejected
(`fetchThrow`), or a response arrived, carrying `res.ok`, `res.status`, the
parsed body `data` (`none` when `res.json()` failed), and the `data.error` /
`data.message` fields used for error extraction. -/
inductive FetchResult where
  | fetchThrow (e : JsErr)
  | response (ok : Bool) (status : Nat) (data : JVal)
      (dataError : Option String) (dataMessage : Option String)
deriving DecidableEq

/-- What a successful `api` call produces: the returned data, the final value
of `api.lastFromCache`, and the `Cache.set` write it performed (if any). -/
structure ApiResult where
  data : JVal
  fromCache : Bool
  cacheWrite : Option (String × JVal)
deriving DecidableEq

/-- The control flow of `api(path, method, body, {cacheKey, cacheMaxAgeMs})`
relevant to caching and failure:
1. for a GET with a `cacheKey` while offline, return the cache hit (if any)
   under the caller's `cacheMaxAgeMs`;
2. otherwise run `fetch`; if it throws and the error is a network error,
   a GET with a `cacheKey` falls back to the cache (same `cacheMaxAgeMs`)
   before propagating the error;
3. a non-ok response throws `Error(msg)` with the extracted message;
4. an ok GET response with a `cacheKey` is written back to the cache. -/
def api (method : String) (cacheKey : Option String) (cacheMaxAgeMs : Nat)
    (online : Bool) (store : CacheStore) (fetchRes : FetchResult) (nowMs : Nat) :
    Except JsErr ApiResult :=
  let useCache := method == "GET" && cacheKey.isSome
  let offlineHit : JVal :=
    if useCache && !online then
      Cache.get store (cacheKey.getD "") cacheMaxAgeMs nowMs
    else none
  match offlineHit with
  | some v => .ok { data := some v, fromCache := true, cacheWrite := none }
  | none =>
    match fetchRes with
    | .fetchThrow e =>
      if useCache && isNetworkError online e.name e.message then
        match Cache.get store (cacheKey.getD "") cacheMaxAgeMs nowMs with
        | some v => .ok { data := some v, fromCache := true, cacheWrite := none }
        | none => .error e
      else .error e
    | .response ok status data dErr dMsg =>
      if !ok then
        .error { name := "Error",
                 message := ((dErr.orElse fun _ => dMsg)).getD ("HTTP " ++ toString status) }
      else
        .ok { data := data, fromCache := false,
              cacheWrite := if useCache then some (cacheKey.getD "", data) else none }

/-- The decoded middle segment of a JWT: the `exp` (epoch-seconds) and `role`
claims, when present.  JS truthiness of `p.exp` makes an `exp` of `0` count
as missing. -/
structure JwtPayload where
  exp : Option Int
  role : Option String
deriving DecidableEq

/-- A JWT string, represented by its decode result (`none` = undecodable). -/
abbrev Jwt := Option JwtPayload

/-- `decodeJwtPayload(token)`: base64-decode and JSON-parse the middle
segment; in this embedding the token is already its decode result. -/
def decodeJwtPayload (t : Jwt) : Option JwtPayload := t

/-- `isJwtExpired(token, skewSeconds)`: expired when the payload is missing,
when `p.exp` is falsy, or when `p.exp - skewSeconds <= nowSec`. -/
def isJwtExpired (t : Jwt) (skewSeconds : Int) (nowSec : Int) : Bool :=
  match decodeJwtPayload t with
  | none => true
  | some p =>
    match p.exp with
    | none => true
    | some e => if e = 0 then true else decide (e - skewSeconds ≤ nowSec)

/-- The session object (`Session.data`): role plus identifying fields; absent
JS fields are `none`. -/
structure SessionData where
  role : String
  name : String
  adminEmail : Option String
  vendorId : Option String
  userId : Option String
deriving DecidableEq

/-- A remembered offline account, as built by `rememberSession`. -/
structure Account where
  key : String
  role : String
  loginId : String
  name : String
  session : SessionData
  token : Jwt
  lastLoginAt : Nat
deriving DecidableEq

/-- `accountKey(role, loginId)`: lowercase both and join with a colon. -/
def accountKey (role loginId : String) : String :=
  lowerStr role ++ ":" ++ lowerStr loginId

/-- The JS falsy-chain `identifier || session.adminEmail || session.vendorId
|| session.userId || ""` (empty string is falsy). -/
def loginIdSource (identifier : String) (session : SessionData) : String :=
  if identifier ≠ "" then identifier
  else if session.adminEmail.getD "" ≠ "" then session.adminEmail.getD ""
  else if session.vendorId.getD "" ≠ "" then session.vendorId.getD ""
  else session.userId.getD ""

/-- The entry `rememberSession` pushes to the front of the account list. -/
def rememberedEntry (session : SessionData) (token : Jwt) (identifier : String)
    (nowT : Nat) : Account :=
  let role := lowerStr session.role
  let loginId := lowerStr (trimStr (loginIdSource identifier session))
  { key := accountKey role loginId, role := role, loginId := loginId,
    name := session.name, session := session, token := token, lastLoginAt := nowT }

/-- The account-list part of `rememberSession(session, token, identifier)`:
when the derived role and loginId are non-empty, drop every entry with the
same key, push the fresh entry at the front and truncate to 5.  (We model
only calls where `session` and `token` are present — the `!session || !token`
early return — and omit the writes to the legacy single-session slots, which
are modelled separately as `LegacyData`.) -/
def rememberSession (list : List Account) (session : SessionData) (token : Jwt)
    (identifier : String) (nowT : Nat) : List Account :=
  let role := lowerStr session.role
  let loginId := lowerStr (trimStr (loginIdSource identifier session))
  if role = "" ∨ loginId = "" then list
  else
    let key := accountKey role loginId
    let next := list.filter fun a => a.key ≠ key
    (rememberedEntry session token identifier nowT :: next).take 5

/-- The legacy single-slot fallback data (`lastSession`, `lastJwt`,
`lastLoginId`, `lastLoginAt` store keys). -/
structure LegacyData where
  lastSession : Option SessionData
  lastJwt : Option Jwt
  lastLoginId : Option String
  lastLoginAt : Option Nat
deriving DecidableEq

/-- Result of `findOfflineAccount`: `{ok:true, item}` or `{ok:false, reason}`. -/
inductive FindResult where
  | ok (item : Account)
  | err (reason : String)
deriving DecidableEq

/-- `findOfflineAccount(role, loginId)`: normalize the arguments, find an
exact `(role, loginId)` match in the list, fall back to the legacy slot when
it matches, then reject expired tokens.  `nowSec` is the clock read inside
`isJwtExpired`; `nowT` is the `now()` default for `lastLoginAt`. -/
def findOfflineAccount (role loginId : String) (list : List Account)
    (legacy : LegacyData) (nowSec : Int) (nowT : Nat) : FindResult :=
  let r := lowerStr role
  let id := lowerStr (trimStr loginId)
  if r = "" ∨ id = "" then .err "missing"
  else
    let found := list.find? fun a => a.role == r && a.loginId == id
    let item : Option Account :=
      match found with
      | some a => some a
      | none =>
        match legacy.lastSession, legacy.lastJwt with
        | some ls, some lj =>
          let legacyRole := lowerStr ls.role
          let legacyLogin := lowerStr (trimStr (legacy.lastLoginId.getD ""))
          if legacyRole = r ∧ legacyLogin = id then
            some { key := accountKey r id, role := r, loginId := id,
                   name := ls.name, session := ls, token := lj,
                   lastLoginAt := legacy.lastLoginAt.getD nowT }
          else none
        | _, _ => none
    match item with
    | none => .err "not_found"
    | some it =>
      if isJwtExpired it.token 60 nowSec then .err "expired" else .ok it

/-- Well-formedness of the stored offline-account list, as maintained by
`rememberSession`: at most 5 entries, pairwise-distinct keys, and every
entry's key is the `accountKey` of its own role and loginId. -/
def AccountsWF (l : List Account) : Prop :=
  l.length ≤ 5 ∧ (l.map Account.key).Nodup
    ∧ ∀ a ∈ l, a.key = accountKey a.role a.loginId

namespace OfflineQueue

/-- A persisted queue entry.  `payload` is opaque JSON text; `error` /
`failedAt` are attached only by a logical flush failure. -/
structure QueueItem where
  id : String
  type : String
  payload : String
  createdAt : Nat
  error : Option String
  failedAt : Option Nat
deriving DecidableEq

/-- The mutable fields of the `OfflineQueue` singleton.  `timer` is whether
the one-shot `setTimeout` handle (`_timer`) is armed. -/
structure QueueState where
  list : List QueueItem
  flushing : Bool
  retryCount : Nat
  nextRetryAt : Option Nat
  timer : Bool
deriving DecidableEq

/-- The state at startup (with an empty persisted queue). -/
def initialState : QueueState :=
  { list := [], flushing := false, retryCount := 0, nextRetryAt := none, timer := false }

/-- The argument of `enqueue(item)`: fields the caller may omit. -/
structure EnqArg where
  id : Option String
  type : String
  payload : Option String
  createdAt : Option Nat
deriving DecidableEq

/-- The entry `enqueue` builds: `id: item.id || generated`,
`payload: item.payload || {}`, `createdAt: item.createdAt || now()`. -/
def mkEntry (arg : EnqArg) (genId : String) (genNow : Nat) : QueueItem :=
  { id := arg.id.getD genId, type := arg.type, payload := arg.payload.getD "{}",
    createdAt := arg.createdAt.getD genNow, error := none, failedAt := none }

/-- `delay + jitter` as computed in `scheduleFlush`:
`Math.min(60000, 2000 * 2^retryCount)` plus `Math.floor(Math.random()*400)`
(so `jitter < 400`). -/
def scheduleFlushDelay (retryCount jitter : Nat) : Nat :=
  min 60000 (2000 * 2 ^ retryCount) + jitter

/-- `scheduleFlush()`: no-op when a timer is armed or the queue is empty;
otherwise arm the timer and record the next-retry deadline. -/
def scheduleFlush (st : QueueState) (now jitter : Nat) : QueueState :=
  if st.timer || st.list.isEmpty then st
  else
    { st with nextRetryAt := some (now + scheduleFlushDelay st.retryCount jitter),
              timer := true }

/-- `clearSchedule()`: cancel the timer and forget the deadline. -/
def clearSchedule (st : QueueState) : QueueState :=
  { st with timer := false, nextRetryAt := none }

/-- `enqueue(item)`: append the built entry at the tail; if online,
schedule a flush. -/
def enqueue (st : QueueState) (arg : EnqArg) (genId : String) (genNow : Nat)
    (online : Bool) (now jitter : Nat) : QueueState :=
  let st1 := { st with list := st.list ++ [mkEntry arg genId genNow] }
  if online then scheduleFlush st1 now jitter else st1

/-- The endpoint the flush loop dispatches a queue item to, by `item.type`;
`none` for the unknown kinds, which fall through the if-chain with no call. -/
def dispatchEndpoint (t : String) : Option String :=
  if t == "report.create" then some "/reports"
  else if t == "vendor.complete" then some "/reports/vendor/complete"
  else if t == "admin.assign" then some "/reports/assign"
  else if t == "admin.status" then some "/reports/status"
  else none

/-- What one run of the `for` loop inside `flush` produces: the computed
`remaining` queue, the `failedNet` flag, the ids of the items whose remote
call succeeded, and the remote calls issued (endpoint, item id) in order. -/
structure LoopResult where
  remaining : List QueueItem
  failedNet : Bool
  okIds : List String
  calls : List (String × String)
deriving DecidableEq

/-- The `for` loop of `flush` (source lines 457-476), processing the queue
head to tail.  On a success the item is dropped and the loop continues; on a
throw the loop stops: `remaining = this.list.slice(i)`, with the head
replaced by an annotated copy when the error is not a network error.  The
annotation is `e?.message || "Failed"`: the error's message when truthy, the
fallback string `"Failed"` when the message is empty. -/
def flushLoop (online : Bool) (outcome : QueueItem → Option JsErr) (now : Nat) :
    List QueueItem → LoopResult
  | [] => ⟨[], false, [], []⟩
  | item :: rest =>
    match dispatchEndpoint item.type with
    | none => flushLoop online outcome now rest
    | some ep =>
      match outcome item with
      | none =>
        let r := flushLoop online outcome now rest
        ⟨r.remaining, r.failedNet, item.id :: r.okIds, (ep, item.id) :: r.calls⟩
      | some e =>
        if isNetworkError online e.name e.message then
          ⟨item :: rest, true, [], [(ep, item.id)]⟩
        else
          ⟨{ item with
              error := some (if e.message ≠ "" then e.message else "Failed"),
              failedAt := some now } :: rest,
            false, [], [(ep, item.id)]⟩

/-- The full result of one `flush` run. -/
structure FlushOut where
  state : QueueState
  okIds : List String
  calls : List (String × String)
deriving DecidableEq

/-- `flush(force)` as one atomic transition (connectivity `online` held fixed
for the run; the oracle `outcome` gives each awaited call's result):
guard on `_flushing`; on `force` reset the backoff and cancel the timer;
offline runs only reschedule; an empty queue returns; otherwise run the loop,
persist `remaining`, and either reset (queue drained) or — after a network
failure while online — bump the saturating retry counter and reschedule. -/
def flush (st : QueueState) (force online : Bool)
    (outcome : QueueItem → Option JsErr) (now jitter : Nat) : FlushOut :=
  if st.flushing then ⟨st, [], []⟩
  else
    let st1 := if force then { (clearSchedule st) with retryCount := 0 } else st
    if !online then ⟨scheduleFlush st1 now jitter, [], []⟩
    else if st1.list.isEmpty then ⟨st1, [], []⟩
    else
      let L := flushLoop online outcome now st1.list
      let st2 := { st1 with list := L.remaining }
      if L.remaining.isEmpty then
        ⟨{ (clearSchedule st2) with retryCount := 0 }, L.okIds, L.calls⟩
      else if online && L.failedNet then
        ⟨scheduleFlush { st2 with retryCount := min (st2.retryCount + 1) 6 } now jitter,
          L.okIds, L.calls⟩
      else ⟨st2, L.okIds, L.calls⟩

/-- One queue-affecting operation: an `enqueue` call (with its generated id
and timestamp, and the connectivity/clock/jitter seen by `scheduleFlush`),
or a `flush` run (with its per-call outcomes). -/
inductive QOp where
  | enq (arg : EnqArg) (genId : String) (genNow : Nat) (online : Bool) (now jitter : Nat)
  | doFlush (force online : Bool) (outcome : QueueItem → Option JsErr) (now jitter : Nat)

/-- Run a sequence of operations, collecting the ids of the items whose
remote call succeeded, in dispatch order. -/
def runOps (st : QueueState) : List QOp → QueueState × List String
  | [] => (st, [])
  | QOp.enq arg gid gnow online now j :: ops =>
    runOps (enqueue st arg gid gnow online now j) ops
  | QOp.doFlush force online outcome now j :: ops =>
    let out := flush st force online outcome now j
    let rest := runOps out.state ops
    (rest.1, out.okIds ++ rest.2)

/-- The ids of the entries inserted by the `enqueue` operations, in order. -/
def insertedIds : List QOp → List String
  | [] => []
  | QOp.enq arg gid gnow _ _ _ :: ops => (mkEntry arg gid gnow).id :: insertedIds ops
  | QOp.doFlush _ _ _ _ _ :: ops => insertedIds ops

/-- An operation is kind-respecting when any entry it enqueues has one of the
four dispatchable kinds (the only kinds the application ever enqueues). -/
def KindRespecting : QOp → Prop
  | QOp.enq arg _ _ _ _ _ => (dispatchEndpoint arg.type).isSome = true
  | QOp.doFlush _ _ _ _ _ => True

end OfflineQueue

open OfflineQueue

/-- The annotated copy of a failed item keeps its id. -/
lemma annotated_id (item : QueueItem) (m : String) (n : Nat) :
    ({ item with error := some m, failedAt := some n } : QueueItem).id = item.id := rfl

/-- The annotated copy of a failed item keeps its type. -/
lemma annotated_type (item : QueueItem) (m : String) (n : Nat) :
    ({ item with error := some m, failedAt := some n } : QueueItem).type = item.type := rfl

lemma flushLoop_okIds_append (online : Bool) (outcome : QueueItem → Option JsErr)
    (now : Nat) :
    ∀ l : List QueueItem, (∀ x ∈ l, (dispatchEndpoint x.type).isSome = true) →
      (flushLoop online outcome now l).okIds
          ++ (flushLoop online outcome now l).remaining.map QueueItem.id
        = l.map QueueItem.id := by
  intro l h
  induction l with
  | nil => simp [flushLoop]
  | cons item rest ih =>
    have hitem := h item (by simp)
    obtain ⟨ep, hep⟩ := Option.isSome_iff_exists.mp hitem
    have hrest : ∀ x ∈ rest, (dispatchEndpoint x.type).isSome = true := by
      intro x hx; exact h x (by simp [hx])
    cases hout : outcome item with
    | none => simp [flushLoop, hep, hout, ih hrest]
    | some e =>
      by_cases hn : isNetworkError online e.name e.message = true
      · simp [flushLoop, hep, hout, hn]
      · simp at hn
        simp [flushLoop, hep, hout, hn]

lemma flushLoop_dispatchable (online : Bool) (outcome : QueueItem → Option JsErr)
    (now : Nat) :
    ∀ l : List QueueItem, (∀ x ∈ l, (dispatchEndpoint x.type).isSome = true) →
      ∀ x ∈ (flushLoop online outcome now l).remaining,
        (dispatchEndpoint x.type).isSome = true := by
  intro l h
  induction l with
  | nil => simp [flushLoop]
  | cons item rest ih =>
    have hitem := h item (by simp)
    obtain ⟨ep, hep⟩ := Option.isSome_iff_exists.mp hitem
    have hrest : ∀ x ∈ rest, (dispatchEndpoint x.type).isSome = true := by
      intro x hx; exact h x (by simp [hx])
    cases hout : outcome item with
    | none =>
      intro x hx
      simp only [flushLoop, hep, hout] at hx
      exact ih hrest x hx
    | some e =>
      by_cases hn : isNetworkError online e.name e.message = true
      · intro x hx
        simp only [flushLoop, hep, hout, hn, if_true, List.mem_cons] at hx
        rcases hx with hx | hx
        · subst hx; exact hitem
        · exact hrest x hx
      · simp at hn
        intro x hx
        simp only [flushLoop, hep, hout, hn, Bool.false_eq_true, if_false,
          List.mem_cons] at hx
        rcases hx with hx | hx
        · subst hx; simpa using hitem
        · exact hrest x hx

lemma flushLoop_calls_ids (online : Bool) (outcome : QueueItem → Option JsErr)
    (now : Nat) :
    ∀ l : List QueueItem, ∀ s ∈ (flushLoop online outcome now l).calls.map Prod.snd,
      s ∈ l.map QueueItem.id := by
  intro l
  induction l with
  | nil => simp [flushLoop]
  | cons item rest ih =>
    intro s hs
    cases hep : dispatchEndpoint item.type with
    | none =>
      simp only [flushLoop, hep] at hs
      simp [ih s hs]
    | some ep =>
      cases hout : outcome item with
      | none =>
        simp only [flushLoop, hep, hout, List.map_cons, List.mem_cons] at hs
        rcases hs with hs | hs
        · simp [hs]
        · simp [ih s hs]
      | some e =>
        by_cases hn : isNetworkError online e.name e.message = true <;>
          simp [flushLoop, hep, hout, hn] at hs <;> simp [hs]

lemma flushLoop_remaining_ids (online : Bool) (outcome : QueueItem → Option JsErr)
    (now : Nat) :
    ∀ l : List QueueItem, ∀ s ∈ (flushLoop online outcome now l).remaining.map QueueItem.id,
      s ∈ l.map QueueItem.id := by
  intro l
  induction l with
  | nil => simp [flushLoop]
  | cons item rest ih =>
    intro s hs
    cases hep : dispatchEndpoint item.type with
    | none =>
      simp only [flushLoop, hep] at hs
      simp [ih s hs]
    | some ep =>
      cases hout : outcome item with
      | none =>
        simp only [flushLoop, hep, hout] at hs
        simp [ih s hs]
      | some e =>
        by_cases hn : isNetworkError online e.name e.message = true <;>
          simp [flushLoop, hep, hout, hn, annotated_id] at hs <;>
          rcases hs with hs | hs <;> simp [hs]

@[simp] lemma scheduleFlush_list (st : QueueState) (now jitter : Nat) :
    (scheduleFlush st now jitter).list = st.list := by
  unfold scheduleFlush; split <;> rfl

@[simp] lemma scheduleFlush_retryCount (st : QueueState) (now jitter : Nat) :
    (scheduleFlush st now jitter).retryCount = st.retryCount := by
  unfold scheduleFlush; split <;> rfl

@[simp] lemma scheduleFlush_flushing (st : QueueState) (now jitter : Nat) :
    (scheduleFlush st now jitter).flushing = st.flushing := by
  unfold scheduleFlush; split <;> rfl

@[simp] lemma clearSchedule_list (st : QueueState) :
    (clearSchedule st).list = st.list := rfl

/-- `flush` does not run the loop when offline or when the queue is empty;
otherwise the queue becomes the loop's `remaining` and the run reports the
loop's `okIds`. -/
lemma flush_char (st : QueueState) (force online : Bool)
    (outcome : QueueItem → Option JsErr) (now jitter : Nat)
    (hf : st.flushing = false) :
    (flush st force online outcome now jitter).state.list
        = (if online = false ∨ st.list = [] then st.list
           else (flushLoop online outcome now st.list).remaining)
      ∧ (flush st force online outcome now jitter).okIds
        = (if online = false ∨ st.list = [] then []
           else (flushLoop online outcome now st.list).okIds) := by
  by_cases he : st.list = []
  · cases force <;> cases online <;>
      simp [flush, hf, he, clearSchedule, flushLoop]
  · by_cases hr : (flushLoop online outcome now st.list).remaining = []
    · cases force <;> cases online <;>
        simp [flush, hf, he, hr, clearSchedule]
    · by_cases hn : (flushLoop online outcome now st.list).failedNet = true
      · cases force <;> cases online <;>
          simp [flush, hf, he, hr, hn, clearSchedule]
      · rw [Bool.not_eq_true] at hn
        cases force <;> cases online <;>
          simp [flush, hf, he, hr, hn, clearSchedule]

lemma flush_okIds_append (st : QueueState) (force online : Bool)
    (outcome : QueueItem → Option JsErr) (now jitter : Nat)
    (hf : st.flushing = false)
    (h : ∀ x ∈ st.list, (dispatchEndpoint x.type).isSome = true) :
    (flush st force online outcome now jitter).okIds
        ++ (flush st force online outcome now jitter).state.list.map QueueItem.id
      = st.list.map QueueItem.id := by
  obtain ⟨h1, h2⟩ := flush_char st force online outcome now jitter hf
  rw [h1, h2]
  by_cases hc : online = false ∨ st.list = []
  · simp [hc]
  · simp only [hc, if_false]
    exact flushLoop_okIds_append online outcome now st.list h

lemma flush_dispatchable (st : QueueState) (force online : Bool)
    (outcome : QueueItem → Option JsErr) (now jitter : Nat)
    (hf : st.flushing = false)
    (h : ∀ x ∈ st.list, (dispatchEndpoint x.type).isSome = true) :
    ∀ x ∈ (flush st force online outcome now jitter).state.list,
      (dispatchEndpoint x.type).isSome = true := by
  obtain ⟨h1, _⟩ := flush_char st force online outcome now jitter hf
  rw [h1]
  by_cases hc : online = false ∨ st.list = []
  · simpa [hc] using h
  · simp only [hc, if_false]
    exact flushLoop_dispatchable online outcome now st.list h

@[simp] lemma enqueue_list (st : QueueState) (arg : EnqArg) (genId : String)
    (genNow : Nat) (online : Bool) (now jitter : Nat) :
    (enqueue st arg genId genNow online now jitter).list
      = st.list ++ [mkEntry arg genId genNow] := by
  unfold enqueue; split <;> simp

@[simp] lemma enqueue_flushing (st : QueueState) (arg : EnqArg) (genId : String)
    (genNow : Nat) (online : Bool) (now jitter : Nat) :
    (enqueue st arg genId genNow online now jitter).flushing = st.flushing := by
  unfold enqueue; split <;> simp

lemma flush_flushing (st : QueueState) (force online : Bool)
    (outcome : QueueItem → Option JsErr) (now jitter : Nat) :
    (flush st force online outcome now jitter).state.flushing = st.flushing := by
  by_cases hf : st.flushing
  · simp [flush, hf]
  · by_cases he : st.list = []
    · cases force <;> cases online <;>
        simp [flush, hf, he, clearSchedule, flushLoop]
    · by_cases hr : (flushLoop online outcome now st.list).remaining = []
      · cases force <;> cases online <;>
          simp [flush, hf, he, hr, clearSchedule]
      · by_cases hn : (flushLoop online outcome now st.list).failedNet = true
        · cases force <;> cases online <;>
            simp [flush, hf, he, hr, hn, clearSchedule]
        · rw [Bool.not_eq_true] at hn
          cases force <;> cases online <;>
            simp [flush, hf, he, hr, hn, clearSchedule]

lemma runOps_okIds_append :
    ∀ (ops : List QOp) (st : QueueState),
      st.flushing = false →
      (∀ x ∈ st.list, (dispatchEndpoint x.type).isSome = true) →
      (∀ op ∈ ops, KindRespecting op) →
      (runOps st ops).2 ++ (runOps st ops).1.list.map QueueItem.id
        = st.list.map QueueItem.id ++ insertedIds ops := by
  intro ops
  induction ops with
  | nil => intro st _ h _; simp [runOps, insertedIds]
  | cons op ops ih =>
    intro st hf h hops
    have hops' : ∀ op ∈ ops, KindRespecting op := by
      intro o ho; exact hops o (by simp [ho])
    cases op with
    | enq arg gid gnow online now j =>
      have harg : (dispatchEndpoint arg.type).isSome = true :=
        hops (QOp.enq arg gid gnow online now j) (List.mem_cons_self _ _)
      have hnext : ∀ x ∈ (enqueue st arg gid gnow online now j).list,
          (dispatchEndpoint x.type).isSome = true := by
        intro x hx
        rw [enqueue_list] at hx
        rcases List.mem_append.mp hx with hx | hx
        · exact h x hx
        · simp only [List.mem_singleton] at hx
          subst hx
          simpa [mkEntry] using harg
      have := ih (enqueue st arg gid gnow online now j) (by simp [hf]) hnext hops'
      simp only [runOps, insertedIds]
      rw [this, enqueue_list]
      simp
    | doFlush force online outcome now j =>
      have hfl := flush_okIds_append st force online outcome now j hf h
      have hnext := flush_dispatchable st force online outcome now j hf h
      have hff : (flush st force online outcome now j).state.flushing = false := by
        rw [flush_flushing, hf]
      have := ih (flush st force online outcome now j).state hff hnext hops'
      simp only [runOps, insertedIds]
      rw [List.append_assoc, this, ← List.append_assoc, hfl]

/-- Claim C1: FIFO invariant of the retry queue.  For every sequence of
`enqueue` calls (of the four dispatchable kinds the application enqueues)
interleaved with any number of `flush` runs with arbitrary per-item
success/failure outcomes, the queue's item order equals the original
insertion order restricted to the items that have not yet succeeded: the
succeeded ids form exactly the prefix of the insertion sequence, and the
queue holds exactly the complementary suffix, in insertion order. -/
theorem fifo_invariant (ops : List QOp)
    (hops : ∀ op ∈ ops, KindRespecting op) :
    (runOps initialState ops).1.list.map QueueItem.id
        = (insertedIds ops).drop (runOps initialState ops).2.length
      ∧ (runOps initialState ops).2
        = (insertedIds ops).take (runOps initialState ops).2.length := by
  have hinv := runOps_okIds_append ops initialState rfl (by simp [initialState]) hops
  rw [show initialState.list = [] from rfl, List.map_nil, List.nil_append] at hinv
  constructor
  · rw [← hinv, List.drop_left]
  · rw [← hinv, List.take_left]

/-- Concrete instance of `fifo_invariant`: enqueue a report and a status
update offline, then flush with the first call succeeding and the second
failing as a network error; the queue keeps exactly the not-yet-succeeded
suffix, in order. -/
theorem fifo_invariant_witness :
    (∀ op ∈ ([QOp.enq ⟨none, "report.create", none, none⟩ "a" 0 false 0 0,
              QOp.enq ⟨none, "admin.status", none, none⟩ "b" 1 false 0 0,
              QOp.doFlush false true
                (fun it => if it.id = "a" then none
                           else some ⟨"TypeError", "Failed to fetch"⟩) 5 3] : List QOp),
        KindRespecting op)
    ∧ (runOps initialState [QOp.enq ⟨none, "report.create", none, none⟩ "a" 0 false 0 0,
              QOp.enq ⟨none, "admin.status", none, none⟩ "b" 1 false 0 0,
              QOp.doFlush false true
                (fun it => if it.id = "a" then none
                           else some ⟨"TypeError", "Failed to fetch"⟩) 5 3]).1.list.map QueueItem.id
        = (insertedIds [QOp.enq ⟨none, "report.create", none, none⟩ "a" 0 false 0 0,
              QOp.enq ⟨none, "admin.status", none, none⟩ "b" 1 false 0 0,
              QOp.doFlush false true
                (fun it => if it.id = "a" then none
                           else some ⟨"TypeError", "Failed to fetch"⟩) 5 3]).drop
            (runOps initialState [QOp.enq ⟨none, "report.create", none, none⟩ "a" 0 false 0 0,
              QOp.enq ⟨none, "admin.status", none, none⟩ "b" 1 false 0 0,
              QOp.doFlush false true
                (fun it => if it.id = "a" then none
                           else some ⟨"TypeError", "Failed to fetch"⟩) 5 3]).2.length :=
  ⟨by intro op hop; fin_cases hop <;> simp [KindRespecting, dispatchEndpoint],
   (fifo_invariant _
     (by intro op hop; fin_cases hop <;> simp [KindRespecting, dispatchEndpoint])).1⟩

/-- Claim C2: flush failure postcondition.  When the items before position
`i = pre.length` all dispatch successfully and the item at position `i`
fails, processing stops and the computed queue is exactly the former items
from position `i` onward in order; a network-classified failure leaves the
failed head unmodified, any other failure annotates it with the failure
message (`e?.message || "Failed"`, so the literal `"Failed"` when the
message is empty) and `failedAt := now`; and the calls issued are exactly
one per item up to and including position `i` — nothing after it is
dispatched. -/
theorem flush_failure_postcondition (online : Bool)
    (outcome : QueueItem → Option JsErr) (now : Nat)
    (pre post : List QueueItem) (item : QueueItem) (ep : String) (e : JsErr)
    (hpre : ∀ x ∈ pre, (dispatchEndpoint x.type).isSome = true ∧ outcome x = none)
    (hd : dispatchEndpoint item.type = some ep)
    (he : outcome item = some e) :
    (isNetworkError online e.name e.message = true →
        (flushLoop online outcome now (pre ++ item :: post)).remaining = item :: post
      ∧ (flushLoop online outcome now (pre ++ item :: post)).failedNet = true)
    ∧ (isNetworkError online e.name e.message = false →
        (flushLoop online outcome now (pre ++ item :: post)).remaining
          = { item with
              error := some (if e.message ≠ "" then e.message else "Failed"),
              failedAt := some now } :: post
      ∧ (flushLoop online outcome now (pre ++ item :: post)).failedNet = false)
    ∧ (flushLoop online outcome now (pre ++ item :: post)).calls.map Prod.snd
        = pre.map QueueItem.id ++ [item.id]
    ∧ item :: post = (pre ++ item :: post).drop pre.length := by
  induction pre with
  | nil =>
    cases hn : isNetworkError online e.name e.message <;>
      simp [flushLoop, hd, he, hn]
  | cons x pre ih =>
    obtain ⟨hx, hox⟩ := hpre x (List.mem_cons_self _ _)
    obtain ⟨epx, hepx⟩ := Option.isSome_iff_exists.mp hx
    have hpre' : ∀ y ∈ pre, (dispatchEndpoint y.type).isSome = true ∧ outcome y = none := by
      intro y hy; exact hpre y (by simp [hy])
    obtain ⟨ih1, ih2, ih3, ih4⟩ := ih hpre'
    refine ⟨?_, ?_, ?_, ?_⟩
    · intro hn
      simpa [flushLoop, hepx, hox] using ih1 hn
    · intro hn
      simpa [flushLoop, hepx, hox] using ih2 hn
    · simp [flushLoop, hepx, hox, ih3]
    · rw [List.cons_append, List.length_cons, List.drop_succ_cons]
      exact ih4

/-- Concrete instance of `flush_failure_postcondition`: a two-item queue
whose second item fails logically; the queue keeps both remaining items with
the failed head annotated, and no item past the failure is dispatched. -/
theorem flush_failure_postcondition_witness :
    (∀ x ∈ ([⟨"a", "report.create", "{}", 0, none, none⟩] : List QueueItem),
        (dispatchEndpoint x.type).isSome = true
          ∧ (fun it : QueueItem =>
              if it.id = "a" then none else some (⟨"Error", "bad request"⟩ : JsErr)) x = none)
    ∧ ((isNetworkError true "Error" "bad request" = false →
        (flushLoop true
            (fun it => if it.id = "a" then none else some ⟨"Error", "bad request"⟩) 9
            ([⟨"a", "report.create", "{}", 0, none, none⟩]
              ++ ⟨"b", "admin.assign", "{}", 1, none, none⟩
                :: [⟨"c", "admin.status", "{}", 2, none, none⟩])).remaining
          = ⟨"b", "admin.assign", "{}", 1,
                some (if ("bad request" : String) ≠ "" then "bad request" else "Failed"),
                some 9⟩
              :: [⟨"c", "admin.status", "{}", 2, none, none⟩]
      ∧ (flushLoop true
            (fun it => if it.id = "a" then none else some ⟨"Error", "bad request"⟩) 9
            ([⟨"a", "report.create", "{}", 0, none, none⟩]
              ++ ⟨"b", "admin.assign", "{}", 1, none, none⟩
                :: [⟨"c", "admin.status", "{}", 2, none, none⟩])).failedNet = false)
      ∧ (flushLoop true
            (fun it => if it.id = "a" then none else some ⟨"Error", "bad request"⟩) 9
            ([⟨"a", "report.create", "{}", 0, none, none⟩]
              ++ ⟨"b", "admin.assign", "{}", 1, none, none⟩
                :: [⟨"c", "admin.status", "{}", 2, none, none⟩])).calls.map Prod.snd
          = [⟨"a", "report.create", "{}", 0, none, none⟩].map QueueItem.id ++ ["b"]) :=
  ⟨by decide,
   (flush_failure_postcondition true
      (fun it => if it.id = "a" then none else some ⟨"Error", "bad request"⟩) 9
      [⟨"a", "report.create", "{}", 0, none, none⟩]
      [⟨"c", "admin.status", "{}", 2, none, none⟩]
      ⟨"b", "admin.assign", "{}", 1, none, none⟩ "/reports/assign" ⟨"Error", "bad request"⟩
      (by decide) (by decide) (by decide)).2.1,
   (flush_failure_postcondition true
      (fun it => if it.id = "a" then none else some ⟨"Error", "bad request"⟩) 9
      [⟨"a", "report.create", "{}", 0, none, none⟩]
      [⟨"c", "admin.status", "{}", 2, none, none⟩]
      ⟨"b", "admin.assign", "{}", 1, none, none⟩ "/reports/assign" ⟨"Error", "bad request"⟩
      (by decide) (by decide) (by decide)).2.2.1⟩

lemma flushLoop_skip_unknown (online : Bool) (outcome : QueueItem → Option JsErr)
    (now : Nat) (u : QueueItem) (hu : dispatchEndpoint u.type = none)
    (post : List QueueItem) :
    ∀ pre : List QueueItem,
      (∀ x ∈ pre, (dispatchEndpoint x.type).isSome = true → outcome x = none) →
      flushLoop online outcome now (pre ++ u :: post)
        = flushLoop online outcome now (pre ++ post) := by
  intro pre
  induction pre with
  | nil =>
    intro _
    simp [flushLoop, hu]
  | cons x pre ih =>
    intro h
    have hx := h x (List.mem_cons_self _ _)
    have h' : ∀ y ∈ pre, (dispatchEndpoint y.type).isSome = true → outcome y = none := by
      intro y hy; exact h y (by simp [hy])
    cases hepx : dispatchEndpoint x.type with
    | none => simp [flushLoop, hepx, ih h']
    | some epx =>
      have hox := hx (by simp [hepx])
      simp [flushLoop, hepx, hox, ih h']

/-- Claim C10 (implicit): a queue item whose type is none of the four
dispatchable kinds is removed by the flush loop without issuing any remote
call — provided the items ahead of it went through, the loop behaves exactly
as if the unknown item were not in the queue: it is absent from the computed
remaining queue and no call carries its id. -/
theorem unknown_kind_vanishes (online : Bool) (outcome : QueueItem → Option JsErr)
    (now : Nat) (pre post : List QueueItem) (u : QueueItem)
    (hu : dispatchEndpoint u.type = none)
    (hpre : ∀ x ∈ pre, (dispatchEndpoint x.type).isSome = true → outcome x = none)
    (hid : u.id ∉ (pre ++ post).map QueueItem.id) :
    flushLoop online outcome now (pre ++ u :: post)
        = flushLoop online outcome now (pre ++ post)
      ∧ u.id ∉ (flushLoop online outcome now (pre ++ u :: post)).calls.map Prod.snd
      ∧ u.id ∉ (flushLoop online outcome now (pre ++ u :: post)).remaining.map QueueItem.id := by
  have hskip := flushLoop_skip_unknown online outcome now u hu post pre hpre
  refine ⟨hskip, ?_, ?_⟩
  · rw [hskip]
    intro hmem
    exact hid (flushLoop_calls_ids online outcome now (pre ++ post) u.id hmem)
  · rw [hskip]
    intro hmem
    exact hid (flushLoop_remaining_ids online outcome now (pre ++ post) u.id hmem)

/-- Concrete instance of `unknown_kind_vanishes`: a queue holding a
successfully-dispatched report, an item of unknown kind and a pending
assignment; the unknown item vanishes with no remote call issued for it. -/
theorem unknown_kind_vanishes_witness :
    dispatchEndpoint "note.create" = none
    ∧ flushLoop true (fun _ => none) 7
          ([⟨"a", "report.create", "{}", 0, none, none⟩]
            ++ ⟨"u", "note.create", "{}", 1, none, none⟩
              :: [⟨"c", "admin.assign", "{}", 2, none, none⟩])
        = flushLoop true (fun _ => none) 7
            ([⟨"a", "report.create", "{}", 0, none, none⟩]
              ++ [⟨"c", "admin.assign", "{}", 2, none, none⟩])
    ∧ "u" ∉ (flushLoop true (fun _ => none) 7
          ([⟨"a", "report.create", "{}", 0, none, none⟩]
            ++ ⟨"u", "note.create", "{}", 1, none, none⟩
              :: [⟨"c", "admin.assign", "{}", 2, none, none⟩])).calls.map Prod.snd :=
  ⟨by decide,
   (unknown_kind_vanishes true (fun _ => none) 7
      [⟨"a", "report.create", "{}", 0, none, none⟩]
      [⟨"c", "admin.assign", "{}", 2, none, none⟩]
      ⟨"u", "note.create", "{}", 1, none, none⟩
      (by decide) (by decide) (by decide)).1,
   (unknown_kind_vanishes true (fun _ => none) 7
      [⟨"a", "report.create", "{}", 0, none, none⟩]
      [⟨"c", "admin.assign", "{}", 2, none, none⟩]
      ⟨"u", "note.create", "{}", 1, none, none⟩
      (by decide) (by decide) (by decide)).2.1⟩

lemma scheduleFlush_timer (st : QueueState) (now jitter : Nat) (h : st.list ≠ []) :
    (scheduleFlush st now jitter).timer = true := by
  unfold scheduleFlush
  by_cases ht : st.timer <;> simp [ht, h]

/-- Claim C8: flush mutual exclusion.  A `flush` call (with any `force`
argument) made while the `_flushing` guard is set returns immediately: the
state — queue, retry counter, timer, deadline — is unchanged and no call is
dispatched.  And a flush that runs to completion with items remaining after
a network failure re-arms the retry timer itself. -/
theorem flush_mutual_exclusion :
    (∀ (st : QueueState) (force online : Bool) (outcome : QueueItem → Option JsErr)
        (now jitter : Nat), st.flushing = true →
        flush st force online outcome now jitter = ⟨st, [], []⟩)
    ∧ (∀ (st : QueueState) (force : Bool) (outcome : QueueItem → Option JsErr)
        (now jitter : Nat), st.flushing = false → st.list ≠ [] →
        (flushLoop true outcome now st.list).remaining ≠ [] →
        (flushLoop true outcome now st.list).failedNet = true →
        (flush st force true outcome now jitter).state.timer = true) := by
  constructor
  · intro st force online outcome now jitter h
    simp [flush, h]
  · intro st force outcome now jitter hf hne hr hn
    cases force <;>
      simp only [flush, hf, Bool.false_eq_true, if_false, if_true, Bool.not_true,
        clearSchedule, hne, hr, hn, List.isEmpty_eq_true] <;>
      exact scheduleFlush_timer _ now jitter (by simpa using hr)

/-- Concrete instance of `flush_mutual_exclusion`: with the `_flushing`
guard set, a forced flush leaves the queue, counter and timer untouched and
dispatches nothing. -/
theorem flush_mutual_exclusion_witness :
    (⟨[⟨"a", "report.create", "{}", 0, none, none⟩], true, 4, some 90, true⟩
        : QueueState).flushing = true
    ∧ flush ⟨[⟨"a", "report.create", "{}", 0, none, none⟩], true, 4, some 90, true⟩
          true true (fun _ => none) 100 5
        = ⟨⟨[⟨"a", "report.create", "{}", 0, none, none⟩], true, 4, some 90, true⟩, [], []⟩ :=
  ⟨rfl,
   flush_mutual_exclusion.1
     ⟨[⟨"a", "report.create", "{}", 0, none, none⟩], true, 4, some 90, true⟩
     true true (fun _ => none) 100 5 rfl⟩

/-- Claim C4: retry backoff.  For every retry count `n` and jitter draw
`j < 400`, the armed delay lies in
`[min(60000, 2000*2^n), min(60000, 2000*2^n) + 400)` — the exponential term
is clamped to 60000 before the jitter is added.  And across a whole `flush`
run the retry counter changes exactly as follows: it is reset by `force`,
reset when the queue drains, incremented (saturating at 6) exactly when the
run ends with items remaining after a network-classified failure, and
unchanged otherwise. -/
theorem retry_backoff :
    (∀ n j : Nat, j < 400 →
        min 60000 (2000 * 2 ^ n) ≤ scheduleFlushDelay n j
      ∧ scheduleFlushDelay n j < min 60000 (2000 * 2 ^ n) + 400)
    ∧ (∀ (st : QueueState) (force online : Bool) (outcome : QueueItem → Option JsErr)
        (now jitter : Nat), st.flushing = false →
        (flush st force online outcome now jitter).state.retryCount
          = if online = false ∨ st.list = [] then (if force then 0 else st.retryCount)
            else if (flushLoop online outcome now st.list).remaining = [] then 0
            else if (flushLoop online outcome now st.list).failedNet = true
            then min ((if force then 0 else st.retryCount) + 1) 6
            else (if force then 0 else st.retryCount)) := by
  constructor
  · intro n j hj
    unfold scheduleFlushDelay
    omega
  · intro st force online outcome now jitter hf
    by_cases he : st.list = []
    · cases force <;> cases online <;>
        simp [flush, hf, he, clearSchedule, flushLoop]
    · by_cases hr : (flushLoop online outcome now st.list).remaining = []
      · cases force <;> cases online <;>
          simp [flush, hf, he, hr, clearSchedule]
      · by_cases hn : (flushLoop online outcome now st.list).failedNet = true
        · cases force <;> cases online <;>
            simp [flush, hf, he, hr, hn, clearSchedule]
        · rw [Bool.not_eq_true] at hn
          cases force <;> cases online <;>
            simp [flush, hf, he, hr, hn, clearSchedule]

/-- Concrete instance of `retry_backoff`: at retry count 3 with jitter 7 the
delay is 16007, inside `[16000, 16400)`; and a network-failed flush bumps
the counter from 3 to 4. -/
theorem retry_backoff_witness :
    (7 < 400
      ∧ min 60000 (2000 * 2 ^ 3) ≤ scheduleFlushDelay 3 7
      ∧ scheduleFlushDelay 3 7 < min 60000 (2000 * 2 ^ 3) + 400)
    ∧ ((⟨[⟨"a", "report.create", "{}", 0, none, none⟩], false, 3, none, false⟩
          : QueueState).flushing = false
      ∧ (flush ⟨[⟨"a", "report.create", "{}", 0, none, none⟩], false, 3, none, false⟩
            false true (fun _ => some ⟨"TypeError", "Failed to fetch"⟩) 100 7).state.retryCount
          = if (true : Bool) = false
              ∨ ([⟨"a", "report.create", "{}", 0, none, none⟩] : List QueueItem) = []
            then (if (false : Bool) then 0 else 3)
            else if (flushLoop true (fun _ => some ⟨"TypeError", "Failed to fetch"⟩) 100
                [⟨"a", "report.create", "{}", 0, none, none⟩]).remaining = [] then 0
            else if (flushLoop true (fun _ => some ⟨"TypeError", "Failed to fetch"⟩) 100
                [⟨"a", "report.create", "{}", 0, none, none⟩]).failedNet = true
            then min ((if (false : Bool) then 0 else 3) + 1) 6
            else (if (false : Bool) then 0 else 3)) :=
  ⟨⟨by decide, retry_backoff.1 3 7 (by decide)⟩,
   ⟨rfl, retry_backoff.2
      ⟨[⟨"a", "report.create", "{}", 0, none, none⟩], false, 3, none, false⟩
      false true (fun _ => some ⟨"TypeError", "Failed to fetch"⟩) 100 7 rfl⟩⟩

/-- Claim C5: token expiry check.  For a token with a present, non-zero-able
`exp` claim, `isJwtExpired(token, 60)` reports expired exactly when
`exp - 60 <= now` (epoch seconds); an undecodable token or one without an
`exp` claim is reported expired; a token with `exp = now - 1` is expired and
one with `exp = now + 60 + 1` is valid. -/
theorem jwt_expiry (e : Int) (r ro : Option String) (nowSec : Int)
    (hnow : 0 ≤ nowSec) :
    (isJwtExpired (some ⟨some e, r⟩) 60 nowSec = true ↔ e - 60 ≤ nowSec)
    ∧ isJwtExpired none 60 nowSec = true
    ∧ isJwtExpired (some ⟨none, ro⟩) 60 nowSec = true
    ∧ isJwtExpired (some ⟨some (nowSec - 1), r⟩) 60 nowSec = true
    ∧ isJwtExpired (some ⟨some (nowSec + 60 + 1), r⟩) 60 nowSec = false := by
  refine ⟨?_, rfl, rfl, ?_, ?_⟩
  · by_cases he : e = 0
    · subst he
      simp only [isJwtExpired, decodeJwtPayload, if_true]
      constructor
      · intro _; omega
      · intro _; trivial
    · simp only [isJwtExpired, decodeJwtPayload, he, if_false, decide_eq_true_eq]
  · by_cases he : nowSec - 1 = 0
    · simp [isJwtExpired, decodeJwtPayload, he]
    · simp only [isJwtExpired, decodeJwtPayload, he, if_false, decide_eq_true_eq]
      omega
  · have he : ¬(nowSec + 60 + 1 = 0) := by omega
    simp only [isJwtExpired, decodeJwtPayload, he, if_false, decide_eq_false_iff_not]
    omega

/-- Concrete instance of `jwt_expiry` at `now = 1000`: a payload with
`exp = 500` is expired (`440 <= 1000`), `exp = now - 1` is expired, and
`exp = now + 61` is valid. -/
theorem jwt_expiry_witness :
    (0 : Int) ≤ 1000
    ∧ (isJwtExpired (some ⟨some 500, none⟩) 60 1000 = true ↔ (500 : Int) - 60 ≤ 1000)
    ∧ isJwtExpired (some ⟨some (1000 - 1), none⟩) 60 1000 = true
    ∧ isJwtExpired (some ⟨some (1000 + 60 + 1), none⟩) 60 1000 = false :=
  ⟨by decide,
   (jwt_expiry 500 none none 1000 (by decide)).1,
   (jwt_expiry 500 none none 1000 (by decide)).2.2.2.1,
   (jwt_expiry 500 none none 1000 (by decide)).2.2.2.2⟩

/-- Claim C7: cache contract.  For a record stored by `Cache.set` at a
positive timestamp, `Cache.get` returns it while `now - t <= maxAge` and
absent once `now - t > maxAge` (so the value is still returned at age
exactly `maxAge` and at `maxAge - 1`, and absent at `maxAge + 1`); a missing
record is absent; `set` always overwrites, stamping the given current time;
and the default `maxAge` is 10 minutes. -/
theorem cache_contract (store : CacheStore) (k : String) (v : JVal)
    (tset now maxAge : Nat) (ht : 0 < tset) :
    Cache.get (Cache.set store k v tset) k maxAge now
        = (if now - tset > maxAge then none else v)
    ∧ (store k = none → Cache.get store k maxAge now = none)
    ∧ (now - tset = maxAge → Cache.get (Cache.set store k v tset) k maxAge now = v)
    ∧ (now - tset = maxAge + 1 → Cache.get (Cache.set store k v tset) k maxAge now = none)
    ∧ (1 ≤ maxAge → now - tset = maxAge - 1 →
        Cache.get (Cache.set store k v tset) k maxAge now = v)
    ∧ Cache.set store k v tset k = some ⟨tset, v⟩
    ∧ Cache.defaultMaxAgeMs = 10 * 60 * 1000 := by
  have hz : tset ≠ 0 := by omega
  refine ⟨?_, ?_, ?_, ?_, ?_, ?_, rfl⟩
  · by_cases hage : now - tset > maxAge
    · simp [Cache.get, Cache.set, hz, hage]
    · simp [Cache.get, Cache.set, hz, hage]
  · intro h
    simp [Cache.get, h]
  · intro h
    simp [Cache.get, Cache.set, hz]
    omega
  · intro h
    simp [Cache.get, Cache.set, hz]
    omega
  · intro h1 h2
    simp [Cache.get, Cache.set, hz]
    omega
  · simp [Cache.set]

/-- Concrete instance of `cache_contract`: a record stamped at `t = 5` read
with `maxAge = 10` is returned at `now = 15` (age exactly `maxAge`) and the
write is visible in the store. -/
theorem cache_contract_witness :
    0 < 5
    ∧ Cache.get (Cache.set (fun _ => none) "k" (some "v") 5) "k" 10 15
        = (if 15 - 5 > 10 then none else some "v")
    ∧ Cache.set (fun _ => none) "k" (some "v") 5 "k" = some ⟨5, some "v"⟩ :=
  ⟨by decide,
   (cache_contract (fun _ => none) "k" (some "v") 5 15 10 (by decide)).1,
   (cache_contract (fun _ => none) "k" (some "v") 5 15 10 (by decide)).2.2.2.2.2.1⟩

/-- Claim C3 counterexample: with connectivity down, a cached record for the
requested key present but older than `cacheMaxAgeMs` (age `600001 > 600000`),
`api` does not return the cached value — it attempts the network call and
propagates the transport error, refuting the claim that offline reads ignore
the TTL. -/
theorem offline_ttl_counterexample :
    (fun k => if k = "vendors" then some (⟨1, some "stale"⟩ : CacheRec) else none) "vendors"
        = some ⟨1, some "stale"⟩
    ∧ 600002 - 1 > 600000
    ∧ api "GET" (some "vendors") 600000 false
          (fun k => if k = "vendors" then some ⟨1, some "stale"⟩ else none)
          (.fetchThrow ⟨"TypeError", "Failed to fetch"⟩) 600002
        = .error ⟨"TypeError", "Failed to fetch"⟩ := by
  refine ⟨rfl, by decide, ?_⟩
  rfl

/-- Claim C3 (amended): offline GET reads with a `cacheKey` return the cached
value only when it is present and within `cacheMaxAgeMs` — the same TTL as
online — and the transport-failure fallback applies the same TTL before
propagating the error; a fresh hit is served without consulting the network
at all. -/
theorem api_cache_ttl (store : CacheStore) (k : String) (maxAge now : Nat)
    (v : String) (e : JsErr) :
    (Cache.get store k maxAge now = some v →
        ∀ fr : FetchResult, api "GET" (some k) maxAge false store fr now
          = .ok ⟨some v, true, none⟩)
    ∧ (Cache.get store k maxAge now = none →
        api "GET" (some k) maxAge false store (.fetchThrow e) now = .error e)
    ∧ (isNetworkError true e.name e.message = true →
        Cache.get store k maxAge now = some v →
        api "GET" (some k) maxAge true store (.fetchThrow e) now = .ok ⟨some v, true, none⟩)
    ∧ (isNetworkError true e.name e.message = false →
        api "GET" (some k) maxAge true store (.fetchThrow e) now = .error e) := by
  refine ⟨?_, ?_, ?_, ?_⟩
  · intro h fr
    simp [api, h]
  · intro h
    simp [api, h]
  · intro hn h
    simp [api, h, hn]
  · intro hn
    simp [api, hn]

/-- Concrete instance of `api_cache_ttl`: a record 9ms old under a 10ms TTL
is served from cache while offline, whatever the fetch would have done. -/
theorem api_cache_ttl_witness :
    Cache.get (fun k => if k = "vendors" then some (⟨5, some "fresh"⟩ : CacheRec) else none)
        "vendors" 10 14 = some "fresh"
    ∧ api "GET" (some "vendors") 10 false
          (fun k => if k = "vendors" then some ⟨5, some "fresh"⟩ else none)
          (.fetchThrow ⟨"TypeError", "Failed to fetch"⟩) 14
        = .ok ⟨some "fresh", true, none⟩ :=
  ⟨by decide,
   (api_cache_ttl (fun k => if k = "vendors" then some ⟨5, some "fresh"⟩ else none)
      "vendors" 10 14 "fresh" ⟨"TypeError", "Failed to fetch"⟩).1 (by decide)
      (.fetchThrow ⟨"TypeError", "Failed to fetch"⟩)⟩

lemma filter_key_eq_self (l : List Account) (k : String)
    (h : k ∉ l.map Account.key) :
    (l.filter fun a => a.key ≠ k) = l := by
  apply List.filter_eq_self.mpr
  intro a ha
  simp only [ne_eq, decide_not, Bool.not_eq_true', decide_eq_false_iff_not]
  intro hk
  exact h (hk ▸ List.mem_map_of_mem Account.key ha)

lemma filter_key_length (l : List Account) (k : String)
    (hnd : (l.map Account.key).Nodup) (hk : k ∈ l.map Account.key) :
    (l.filter fun a => a.key ≠ k).length = l.length - 1 := by
  induction l with
  | nil => simp at hk
  | cons a l ih =>
    simp only [List.map_cons, List.nodup_cons] at hnd
    by_cases hak : a.key = k
    · have hnotk : k ∉ l.map Account.key := hak ▸ hnd.1
      rw [List.filter_cons_of_neg (by simp [hak]), filter_key_eq_self l k hnotk]
      simp
    · have hk' : k ∈ l.map Account.key := by
        rcases (List.mem_cons).mp hk with h | h
        · exact absurd h.symm hak
        · exact h
      have hlen : l ≠ [] := by
        intro h; rw [h] at hk'; simp at hk'
      have hpos : 1 ≤ l.length := List.length_pos.mpr hlen
      rw [List.filter_cons_of_pos (by simp [hak])]
      simp only [List.length_cons, ih hnd.2 hk']
      omega

lemma rememberSession_cons (l : List Account) (session : SessionData) (token : Jwt)
    (identifier : String) (nowT : Nat)
    (hrole : lowerStr session.role ≠ "")
    (hid : lowerStr (trimStr (loginIdSource identifier session)) ≠ "") :
    rememberSession l session token identifier nowT
      = rememberedEntry session token identifier nowT
          :: (l.filter fun a =>
                a.key ≠ (rememberedEntry session token identifier nowT).key).take 4 := by
  unfold rememberSession
  simp only [hrole, hid, or_self, if_false, false_or]
  rw [List.take_succ_cons]
  rfl

lemma rememberSession_nodup (l : List Account) (session : SessionData) (token : Jwt)
    (identifier : String) (nowT : Nat) (hnd : (l.map Account.key).Nodup) :
    ((rememberSession l session token identifier nowT).map Account.key).Nodup := by
  by_cases hguard : lowerStr session.role = ""
      ∨ lowerStr (trimStr (loginIdSource identifier session)) = ""
  · simpa [Function.comp, rememberSession, hguard] using hnd
  · push_neg at hguard
    rw [rememberSession_cons l session token identifier nowT hguard.1 hguard.2,
      List.map_cons, List.nodup_cons]
    have hsub : ((l.filter fun a =>
          a.key ≠ (rememberedEntry session token identifier nowT).key).take 4).Sublist l :=
      (List.take_sublist _ _).trans (List.filter_sublist l)
    constructor
    · intro hmem
      obtain ⟨a, ha, hkey⟩ := List.mem_map.mp hmem
      have hmf := List.mem_filter.mp (List.mem_of_mem_take ha)
      simp only [ne_eq, decide_not, Bool.not_eq_true', decide_eq_false_iff_not] at hmf
      exact hmf.2 hkey
    · exact hnd.sublist (hsub.map Account.key)

lemma rememberSession_wf (l : List Account) (session : SessionData) (token : Jwt)
    (identifier : String) (nowT : Nat) (hwf : AccountsWF l) :
    AccountsWF (rememberSession l session token identifier nowT) := by
  obtain ⟨hlen, hnd, hkeys⟩ := hwf
  refine ⟨?_, rememberSession_nodup l session token identifier nowT hnd, ?_⟩
  · by_cases hguard : lowerStr session.role = ""
        ∨ lowerStr (trimStr (loginIdSource identifier session)) = ""
    · simpa [rememberSession, hguard] using hlen
    · push_neg at hguard
      rw [rememberSession_cons l session token identifier nowT hguard.1 hguard.2]
      have := List.length_take_le 4 (l.filter fun a =>
        a.key ≠ (rememberedEntry session token identifier nowT).key)
      simp only [List.length_cons]
      omega
  · by_cases hguard : lowerStr session.role = ""
        ∨ lowerStr (trimStr (loginIdSource identifier session)) = ""
    · simpa [rememberSession, hguard] using hkeys
    · push_neg at hguard
      rw [rememberSession_cons l session token identifier nowT hguard.1 hguard.2]
      intro a ha
      rcases (List.mem_cons).mp ha with h | h
      · subst h; rfl
      · exact hkeys a (List.mem_of_mem_filter (List.mem_of_mem_take h))

/-- Claim C6: account list invariant.  After any `rememberSession` call with
non-empty normalized role and loginId, on a well-formed list: the list has
at most 5 entries and at most one entry per key; the just-remembered entry
sits at the front with the surviving old entries behind it in their previous
order (most-recently-used first); re-remembering an existing key keeps the
length unchanged; a new key grows the list only up to the bound of 5; and
inserting a 6th distinct account drops exactly the last (least recently
used) entry. -/
theorem account_list_invariant (l : List Account) (session : SessionData)
    (token : Jwt) (identifier : String) (nowT : Nat) (hwf : AccountsWF l)
    (hrole : lowerStr session.role ≠ "")
    (hid : lowerStr (trimStr (loginIdSource identifier session)) ≠ "") :
    (rememberSession l session token identifier nowT).length ≤ 5
    ∧ ((rememberSession l session token identifier nowT).map Account.key).Nodup
    ∧ rememberSession l session token identifier nowT
        = rememberedEntry session token identifier nowT
            :: (l.filter fun a =>
                  a.key ≠ (rememberedEntry session token identifier nowT).key).take 4
    ∧ ((rememberedEntry session token identifier nowT).key ∈ l.map Account.key →
        (rememberSession l session token identifier nowT).length = l.length)
    ∧ ((rememberedEntry session token identifier nowT).key ∉ l.map Account.key →
        (rememberSession l session token identifier nowT).length = min (l.length + 1) 5)
    ∧ ((rememberedEntry session token identifier nowT).key ∉ l.map Account.key →
        l.length = 5 →
        rememberSession l session token identifier nowT
          = rememberedEntry session token identifier nowT :: l.dropLast) := by
  obtain ⟨hlen, hnd, hkeys⟩ := hwf
  have hcons := rememberSession_cons l session token identifier nowT hrole hid
  refine ⟨(rememberSession_wf l session token identifier nowT ⟨hlen, hnd, hkeys⟩).1,
    rememberSession_nodup l session token identifier nowT hnd, hcons, ?_, ?_, ?_⟩
  · intro hmem
    have hpos : 1 ≤ l.length := by
      rcases List.mem_map.mp hmem with ⟨a, ha, _⟩
      exact List.length_pos.mpr (List.ne_nil_of_mem ha)
    rw [hcons]
    simp only [List.length_cons, List.length_take,
      filter_key_length l _ hnd hmem]
    omega
  · intro hmem
    rw [hcons, filter_key_eq_self l _ hmem]
    simp only [List.length_cons, List.length_take]
    omega
  · intro hmem h5
    rw [hcons, filter_key_eq_self l _ hmem, List.dropLast_eq_take, h5]

/-- Concrete instance of `account_list_invariant`: remembering a 6th distinct
account on a full well-formed list of 5 evicts exactly the last entry. -/
theorem account_list_invariant_witness :
    AccountsWF [⟨"user:a@x", "user", "a@x", "", ⟨"user", "", none, none, none⟩, none, 0⟩,
        ⟨"user:b@x", "user", "b@x", "", ⟨"user", "", none, none, none⟩, none, 0⟩,
        ⟨"user:c@x", "user", "c@x", "", ⟨"user", "", none, none, none⟩, none, 0⟩,
        ⟨"user:d@x", "user", "d@x", "", ⟨"user", "", none, none, none⟩, none, 0⟩,
        ⟨"user:e@x", "user", "e@x", "", ⟨"user", "", none, none, none⟩, none, 0⟩]
    ∧ lowerStr (⟨"User", "F", none, none, none⟩ : SessionData).role ≠ ""
    ∧ lowerStr (trimStr (loginIdSource " F@x " ⟨"User", "F", none, none, none⟩)) ≠ ""
    ∧ rememberSession
          [⟨"user:a@x", "user", "a@x", "", ⟨"user", "", none, none, none⟩, none, 0⟩,
           ⟨"user:b@x", "user", "b@x", "", ⟨"user", "", none, none, none⟩, none, 0⟩,
           ⟨"user:c@x", "user", "c@x", "", ⟨"user", "", none, none, none⟩, none, 0⟩,
           ⟨"user:d@x", "user", "d@x", "", ⟨"user", "", none, none, none⟩, none, 0⟩,
           ⟨"user:e@x", "user", "e@x", "", ⟨"user", "", none, none, none⟩, none, 0⟩]
          ⟨"User", "F", none, none, none⟩ none " F@x " 7
        = rememberedEntry ⟨"User", "F", none, none, none⟩ none " F@x " 7
            :: [⟨"user:a@x", "user", "a@x", "", ⟨"user", "", none, none, none⟩, none, 0⟩,
                ⟨"user:b@x", "user", "b@x", "", ⟨"user", "", none, none, none⟩, none, 0⟩,
                ⟨"user:c@x", "user", "c@x", "", ⟨"user", "", none, none, none⟩, none, 0⟩,
                ⟨"user:d@x", "user", "d@x", "", ⟨"user", "", none, none, none⟩, none, 0⟩,
                ⟨"user:e@x", "user", "e@x", "", ⟨"user", "", none, none, none⟩, none, 0⟩].dropLast :=
  ⟨by constructor
      · decide
      · constructor
        · decide
        · decide,
   by decide, by decide,
   (account_list_invariant
      [⟨"user:a@x", "user", "a@x", "", ⟨"user", "", none, none, none⟩, none, 0⟩,
       ⟨"user:b@x", "user", "b@x", "", ⟨"user", "", none, none, none⟩, none, 0⟩,
       ⟨"user:c@x", "user", "c@x", "", ⟨"user", "", none, none, none⟩, none, 0⟩,
       ⟨"user:d@x", "user", "d@x", "", ⟨"user", "", none, none, none⟩, none, 0⟩,
       ⟨"user:e@x", "user", "e@x", "", ⟨"user", "", none, none, none⟩, none, 0⟩]
      ⟨"User", "F", none, none, none⟩ none " F@x " 7
      ⟨by decide, by decide, by decide⟩ (by decide) (by decide)).2.2.2.2.2
      (by decide) (by decide)⟩

/-- Claim C9 (implicit): offline-account identity is case-insensitive.
`accountKey` agrees on case variants of its arguments;
`findOfflineAccount` returns the same result for any case variants of its
role and (trimmed) loginId; and any list produced by `rememberSession` from
a well-formed list never holds two entries whose role and loginId differ
only in letter case. -/
theorem account_case_insensitive :
    (∀ r r' id id' : String, lowerStr r = lowerStr r' → lowerStr id = lowerStr id' →
        accountKey r id = accountKey r' id')
    ∧ (∀ (role role' loginId loginId' : String) (list : List Account)
        (legacy : LegacyData) (nowSec : Int) (nowT : Nat),
        lowerStr role = lowerStr role' →
        lowerStr (trimStr loginId) = lowerStr (trimStr loginId') →
        findOfflineAccount role loginId list legacy nowSec nowT
          = findOfflineAccount role' loginId' list legacy nowSec nowT)
    ∧ (∀ (l : List Account) (session : SessionData) (token : Jwt)
        (identifier : String) (nowT : Nat), AccountsWF l →
        (rememberSession l session token identifier nowT).Pairwise fun a b =>
          ¬(lowerStr a.role = lowerStr b.role ∧ lowerStr a.loginId = lowerStr b.loginId)) := by
  refine ⟨?_, ?_, ?_⟩
  · intro r r' id id' h1 h2
    unfold accountKey
    rw [h1, h2]
  · intro role role' loginId loginId' list legacy nowSec nowT h1 h2
    unfold findOfflineAccount
    rw [h1, h2]
  · intro l session token identifier nowT hwf
    obtain ⟨_, hnd, hkeys⟩ := rememberSession_wf l session token identifier nowT hwf
    have hpw : (rememberSession l session token identifier nowT).Pairwise
        fun a b => a.key ≠ b.key := List.pairwise_map.mp hnd
    refine hpw.imp_of_mem ?_
    intro a b ha hb hne hvar
    apply hne
    rw [hkeys a ha, hkeys b hb]
    unfold accountKey
    rw [hvar.1, hvar.2]

/-- Concrete instance of `account_case_insensitive`: looking up
`("User", " A@x ")` and `("uSER", "a@X")` gives the same result. -/
theorem account_case_insensitive_witness :
    lowerStr "User" = lowerStr "uSER"
    ∧ lowerStr (trimStr " A@x ") = lowerStr (trimStr "a@X")
    ∧ findOfflineAccount "User" " A@x "
          [⟨"user:a@x", "user", "a@x", "", ⟨"user", "", none, none, none⟩,
            some ⟨some 99999999999, none⟩, 0⟩] ⟨none, none, none, none⟩ 0 0
        = findOfflineAccount "uSER" "a@X"
            [⟨"user:a@x", "user", "a@x", "", ⟨"user", "", none, none, none⟩,
              some ⟨some 99999999999, none⟩, 0⟩] ⟨none, none, none, none⟩ 0 0 :=
  ⟨by decide, by decide,
   account_case_insensitive.2.1 "User" "uSER" " A@x " "a@X"
     [⟨"user:a@x", "user", "a@x", "", ⟨"user", "", none, none, none⟩,
       some ⟨some 99999999999, none⟩, 0⟩] ⟨none, none, none, none⟩ 0 0
     (by decide) (by decide)⟩

